import Mathlib

/-!
Verification of the retirement-planner projection engine
(`calculate_retirement_plan` in `retirement_planner.py`).

The engine is embedded shallowly: money amounts and rates are rationals,
ages are integers, the optional `retirement_age` is an `Option`, and the
month loop is a fold over `List.range (years * 12 + 1)`.  The Python
expression `month >= retirement_month` raises a `TypeError` when
`retirement_month` is `None`; that failure is modelled by making the step,
and hence the whole run, return an `Option`.
-/

/-- The engine's input parameters (`SimulationConfig` in the spec).
`retirement_age = none` models Python `None`; `target_fund = 0` is the
"no goal" sentinel.  `lump_sums` is the month-index → amount mapping. -/
structure SimulationConfig where
  current_age : ℤ
  retirement_age : Option ℤ
  target_fund : ℚ
  annual_growth : ℚ
  annual_inflation : ℚ
  monthly_contribution : ℚ
  monthly_withdrawal : ℚ
  lump_sums : ℕ → Option ℚ
  years : ℕ
  inflation_adjusted_withdrawals : Bool

/-- One row of the resulting projection (`MonthlyRecord` in the spec):
the columns Month, Age, Total Value, Inflation-Adjusted Value,
Cumulative Contributions, Reached Goal. -/
structure MonthlyRecord where
  month_index : ℕ
  age : ℤ
  nominal_balance : ℚ
  real_balance : ℚ
  cumulative_contributions : ℚ
  goal_reached : Bool
deriving DecidableEq, Repr

/-- The loop accumulators: `balance`, `contribution_total` and
`inflation_multiplier` from the source. -/
structure SimState where
  balance : ℚ
  contribution_total : ℚ
  inflation_multiplier : ℚ
deriving DecidableEq, Repr

/-- `monthly_rate = annual_growth / 12 / 100` (line 35 of the source). -/
def monthly_rate (cfg : SimulationConfig) : ℚ :=
  cfg.annual_growth / 12 / 100

/-- `monthly_inflation = annual_inflation / 12 / 100` (line 36). -/
def monthly_inflation (cfg : SimulationConfig) : ℚ :=
  cfg.annual_inflation / 12 / 100

/-- `target_balance = target_fund if target_fund > 0 else None` (line 48).
Computed by the source but never read again. -/
def target_balance (cfg : SimulationConfig) : Option ℚ :=
  if cfg.target_fund > 0 then some cfg.target_fund else none

/-- `retirement_month = (retirement_age - current_age) * 12 if retirement_age
else None` (line 49).  Python truthiness: both `None` and `0` are falsy. -/
def retirement_month (cfg : SimulationConfig) : Option ℤ :=
  match cfg.retirement_age with
  | none => none
  | some ra => if ra = 0 then none else some ((ra - cfg.current_age) * 12)

/-- The lump sum added at a month: `lump_sums[month]` when `month` is a key,
otherwise nothing (lines 54-56). -/
def lumpAt (cfg : SimulationConfig) (month : ℕ) : ℚ :=
  (cfg.lump_sums month).getD 0

/-- The test `retirement_month is None or month < retirement_month`
(line 59) selecting the accumulation branch. -/
def isAccumulation (cfg : SimulationConfig) (month : ℕ) : Bool :=
  match retirement_month cfg with
  | none => true
  | some rm => decide ((month : ℤ) < rm)

/-- The withdrawal amount (lines 64-68): inflation-adjusted when the flag
is set, using the multiplier accumulated so far. -/
def withdrawalAt (cfg : SimulationConfig) (s : SimState) : ℚ :=
  if cfg.inflation_adjusted_withdrawals then
    cfg.monthly_withdrawal * s.inflation_multiplier
  else cfg.monthly_withdrawal

/-- The goal flag recorded at line 76:
`balance >= target_fund if target_fund else month >= retirement_month`.
When `target_fund` is falsy (zero) and `retirement_month` is `None`, the
comparison `month >= None` raises; that is the `none` case. -/
def goalFlag (cfg : SimulationConfig) (month : ℕ) (balance : ℚ) : Option Bool :=
  if cfg.target_fund = 0 then
    match retirement_month cfg with
    | none => none
    | some rm => some (decide ((month : ℤ) ≥ rm))
  else some (decide (balance ≥ cfg.target_fund))

/-- One month's state update (lines 54-72 and 77): lump sum, then
contribution or withdrawal, then growth, then the inflation-multiplier
update for the next iteration. -/
def nextState (cfg : SimulationConfig) (month : ℕ) (s : SimState) : SimState :=
  let b1 := s.balance + lumpAt cfg month
  let c1 := s.contribution_total + lumpAt cfg month
  let b2 := if isAccumulation cfg month then b1 + cfg.monthly_contribution
            else b1 - withdrawalAt cfg s
  let c2 := if isAccumulation cfg month then c1 + cfg.monthly_contribution
            else c1
  ⟨b2 * (1 + monthly_rate cfg), c2,
   s.inflation_multiplier * (1 + monthly_inflation cfg)⟩

/-- The row recorded for a month (lines 73-76 and 81-86): the post-growth
balance, the real balance deflated by the pre-update multiplier, the
cumulative contributions, and `Age = current_age + month // 12`. -/
def mkRecord (cfg : SimulationConfig) (month : ℕ) (s : SimState) (g : Bool) :
    MonthlyRecord :=
  ⟨month, cfg.current_age + ((month / 12 : ℕ) : ℤ),
   (nextState cfg month s).balance,
   (nextState cfg month s).balance / s.inflation_multiplier,
   (nextState cfg month s).contribution_total, g⟩

/-- One iteration of the loop body: fails exactly when the goal flag's
comparison raises. -/
def simStep (cfg : SimulationConfig) (month : ℕ) (s : SimState) :
    Option (MonthlyRecord × SimState) :=
  match goalFlag cfg month (nextState cfg month s).balance with
  | none => none
  | some g => some (mkRecord cfg month s g, nextState cfg month s)

/-- Running the loop over a list of month indexes, threading the state. -/
def simRun (cfg : SimulationConfig) : SimState → List ℕ →
    Option (List MonthlyRecord)
  | _, [] => some []
  | s, m :: ms =>
    match simStep cfg m s with
    | none => none
    | some (r, s2) =>
      match simRun cfg s2 ms with
      | none => none
      | some rs => some (r :: rs)

/-- The initial accumulators: `balance = 0`, `contribution_total = 0`,
`inflation_multiplier = 1.0` (lines 34, 44-45). -/
def initState : SimState := ⟨0, 0, 1⟩

/-- The engine: `for month in range(months + 1)` with `months = years * 12`,
returning the projection (the spec's `run`). -/
def calculate_retirement_plan (cfg : SimulationConfig) :
    Option (List MonthlyRecord) :=
  simRun cfg initState (List.range (cfg.years * 12 + 1))

/-- The accumulator state just before iteration `m` of the loop. -/
def stateAt (cfg : SimulationConfig) : ℕ → SimState
  | 0 => initState
  | m + 1 => nextState cfg m (stateAt cfg m)

/-- The row the loop records at month `m` (goal flag defaulted when the
source would raise). -/
def recordAt (cfg : SimulationConfig) (m : ℕ) : MonthlyRecord :=
  mkRecord cfg m (stateAt cfg m)
    ((goalFlag cfg m (nextState cfg m (stateAt cfg m)).balance).getD false)

/-- The goal flag never raises: `target_fund` truthy or `retirement_month`
defined. -/
def goalDefined (cfg : SimulationConfig) : Prop :=
  cfg.target_fund ≠ 0 ∨ retirement_month cfg ≠ none

instance (cfg : SimulationConfig) : Decidable (goalDefined cfg) := by
  unfold goalDefined; infer_instance

/-- The per-month data that must not depend on the inflation rate when
withdrawals are not inflation-adjusted: everything but `real_balance`. -/
def observableRecord (r : MonthlyRecord) : ℕ × ℤ × ℚ × ℚ × Bool :=
  (r.month_index, r.age, r.nominal_balance, r.cumulative_contributions,
   r.goal_reached)

/-- A small concrete configuration (target fund 1, zero rates, contribution
1 per month, one simulated year) used to instantiate proved theorems. -/
def cfgW : SimulationConfig :=
  ⟨30, none, 1, 0, 0, 1, 0, fun _ => none, 1, false⟩

/-- Like `cfgW` but with a nonzero retirement age (retirement month 120,
beyond the simulated horizon). -/
def cfgA : SimulationConfig :=
  ⟨30, some 40, 1, 0, 0, 1, 0, fun _ => none, 1, false⟩

/-- Degenerate concrete configuration: retirement age supplied but equal to
zero (hence falsy in the source), and no target fund. -/
def cfgZ : SimulationConfig :=
  ⟨0, some 0, 0, 0, 0, 1, 0, fun _ => none, 1, false⟩

/-- `cfgW` with a different, nonzero inflation rate. -/
def cfgWinfl : SimulationConfig :=
  { cfgW with annual_inflation := 5 }

/-- The projection `cfgW` produces (13 rows, months 0 through 12). -/
def lW : List MonthlyRecord :=
  (List.range 13).map (recordAt cfgW)

/-- The projection `cfgA` produces (13 rows, months 0 through 12). -/
def lA : List MonthlyRecord :=
  (List.range 13).map (recordAt cfgA)

theorem stateAt_succ (cfg : SimulationConfig) (m : ℕ) :
    stateAt cfg (m + 1) = nextState cfg m (stateAt cfg m) := rfl

theorem nextState_mult (cfg : SimulationConfig) (m : ℕ) (s : SimState) :
    (nextState cfg m s).inflation_multiplier =
      s.inflation_multiplier * (1 + monthly_inflation cfg) := rfl

theorem nextState_balance (cfg : SimulationConfig) (m : ℕ) (s : SimState) :
    (nextState cfg m s).balance =
      (if isAccumulation cfg m then s.balance + lumpAt cfg m + cfg.monthly_contribution
       else s.balance + lumpAt cfg m - withdrawalAt cfg s) * (1 + monthly_rate cfg) := by
  unfold nextState
  by_cases hacc : isAccumulation cfg m = true <;> simp [hacc]

theorem nextState_contrib (cfg : SimulationConfig) (m : ℕ) (s : SimState) :
    (nextState cfg m s).contribution_total =
      (if isAccumulation cfg m
       then s.contribution_total + lumpAt cfg m + cfg.monthly_contribution
       else s.contribution_total + lumpAt cfg m) := by
  unfold nextState
  by_cases hacc : isAccumulation cfg m = true <;> simp [hacc]

theorem stateAt_mult (cfg : SimulationConfig) :
    ∀ m : ℕ, (stateAt cfg m).inflation_multiplier = (1 + monthly_inflation cfg) ^ m
  | 0 => by simp [stateAt, initState]
  | m + 1 => by
    rw [stateAt_succ, nextState_mult, stateAt_mult cfg m, pow_succ]

theorem balance_recur (cfg : SimulationConfig) (m : ℕ) :
    (stateAt cfg (m + 1)).balance =
      ((stateAt cfg m).balance + lumpAt cfg m +
        (if isAccumulation cfg m then cfg.monthly_contribution
         else -(if cfg.inflation_adjusted_withdrawals
                then cfg.monthly_withdrawal * (1 + monthly_inflation cfg) ^ m
                else cfg.monthly_withdrawal))) * (1 + monthly_rate cfg) := by
  rw [stateAt_succ, nextState_balance]
  unfold withdrawalAt
  rw [stateAt_mult]
  by_cases hacc : isAccumulation cfg m = true
  · rw [if_pos hacc, if_pos hacc]
  · rw [if_neg hacc, if_neg hacc]
    ring

theorem cum_recur (cfg : SimulationConfig) (m : ℕ) :
    (stateAt cfg (m + 1)).contribution_total =
      (stateAt cfg m).contribution_total + lumpAt cfg m +
        (if isAccumulation cfg m then cfg.monthly_contribution else 0) := by
  rw [stateAt_succ, nextState_contrib]
  by_cases hacc : isAccumulation cfg m = true <;> simp [hacc]

theorem goalFlag_some (cfg : SimulationConfig) (h : goalDefined cfg) (m : ℕ) (b : ℚ) :
    ∃ g, goalFlag cfg m b = some g := by
  by_cases ht : cfg.target_fund = 0
  · rcases h with h | h
    · exact absurd ht h
    · cases hrm : retirement_month cfg with
      | none => exact absurd hrm h
      | some rm =>
        exact ⟨decide ((m : ℤ) ≥ rm), by unfold goalFlag; rw [if_pos ht, hrm]⟩
  · exact ⟨decide (b ≥ cfg.target_fund), by unfold goalFlag; rw [if_neg ht]⟩

theorem simRun_cons (cfg : SimulationConfig) (s : SimState) (m : ℕ) (ms : List ℕ) :
    simRun cfg s (m :: ms) =
      match simStep cfg m s with
      | none => none
      | some (r, s2) =>
        match simRun cfg s2 ms with
        | none => none
        | some rs => some (r :: rs) := rfl

theorem simRun_range' (cfg : SimulationConfig) (h : goalDefined cfg) :
    ∀ (n a : ℕ), simRun cfg (stateAt cfg a) (List.range' a n) =
      some ((List.range' a n).map (recordAt cfg))
  | 0, _ => rfl
  | n + 1, a => by
    obtain ⟨g, hg⟩ := goalFlag_some cfg h a (nextState cfg a (stateAt cfg a)).balance
    have hstep : simStep cfg a (stateAt cfg a) =
        some (recordAt cfg a, stateAt cfg (a + 1)) := by
      unfold simStep recordAt
      rw [hg]
      rfl
    rw [List.range'_succ, simRun_cons, hstep]
    dsimp only
    rw [simRun_range' cfg h n (a + 1)]
    rfl

theorem run_eq (cfg : SimulationConfig) (h : goalDefined cfg) :
    calculate_retirement_plan cfg =
      some ((List.range (cfg.years * 12 + 1)).map (recordAt cfg)) := by
  unfold calculate_retirement_plan
  rw [List.range_eq_range']
  exact simRun_range' cfg h (cfg.years * 12 + 1) 0

theorem run_none (cfg : SimulationConfig) (h : ¬ goalDefined cfg) :
    calculate_retirement_plan cfg = none := by
  unfold goalDefined at h
  push_neg at h
  obtain ⟨ht, hrm⟩ := h
  unfold calculate_retirement_plan
  rw [List.range_eq_range', List.range'_succ]
  unfold simRun simStep goalFlag
  rw [if_pos ht, hrm]

theorem run_some (cfg : SimulationConfig) (l : List MonthlyRecord)
    (h : calculate_retirement_plan cfg = some l) :
    goalDefined cfg ∧ l = (List.range (cfg.years * 12 + 1)).map (recordAt cfg) := by
  by_cases hd : goalDefined cfg
  · refine ⟨hd, ?_⟩
    rw [run_eq cfg hd] at h
    exact (Option.some.inj h).symm
  · rw [run_none cfg hd] at h
    cases h

theorem run_get (cfg : SimulationConfig) (l : List MonthlyRecord) (m : ℕ)
    (r : MonthlyRecord) (h : calculate_retirement_plan cfg = some l)
    (hr : l[m]? = some r) : m < cfg.years * 12 + 1 ∧ r = recordAt cfg m := by
  obtain ⟨-, rfl⟩ := run_some cfg l h
  by_cases hm : m < cfg.years * 12 + 1
  · refine ⟨hm, ?_⟩
    rw [List.getElem?_map, List.getElem?_range hm] at hr
    exact (Option.some.inj hr).symm
  · exfalso
    rw [List.getElem?_eq_none (by simpa using Nat.le_of_not_lt hm)] at hr
    cases hr

theorem recordAt_month_index (cfg : SimulationConfig) (m : ℕ) :
    (recordAt cfg m).month_index = m := rfl

theorem recordAt_nominal (cfg : SimulationConfig) (m : ℕ) :
    (recordAt cfg m).nominal_balance = (stateAt cfg (m + 1)).balance := rfl

theorem recordAt_real (cfg : SimulationConfig) (m : ℕ) :
    (recordAt cfg m).real_balance =
      (stateAt cfg (m + 1)).balance / (stateAt cfg m).inflation_multiplier := rfl

theorem recordAt_cum (cfg : SimulationConfig) (m : ℕ) :
    (recordAt cfg m).cumulative_contributions =
      (stateAt cfg (m + 1)).contribution_total := rfl

theorem recordAt_goal (cfg : SimulationConfig) (m : ℕ) :
    (recordAt cfg m).goal_reached =
      (goalFlag cfg m ((stateAt cfg (m + 1)).balance)).getD false := rfl


theorem retirement_month_of_ne (cfg : SimulationConfig) (ra : ℤ)
    (hra : cfg.retirement_age = some ra) (hne : ra ≠ 0) :
    retirement_month cfg = some ((ra - cfg.current_age) * 12) := by
  unfold retirement_month
  rw [hra]
  dsimp only
  rw [if_neg hne]

theorem retirement_month_none (cfg : SimulationConfig)
    (hra : cfg.retirement_age = none) : retirement_month cfg = none := by
  unfold retirement_month
  rw [hra]

theorem retirement_month_zero (cfg : SimulationConfig)
    (hra : cfg.retirement_age = some 0) : retirement_month cfg = none := by
  unfold retirement_month
  rw [hra]
  rfl

theorem isAccum_of_none (cfg : SimulationConfig) (k : ℕ)
    (h : retirement_month cfg = none) : isAccumulation cfg k = true := by
  unfold isAccumulation
  rw [h]

theorem isAccum_of_lt (cfg : SimulationConfig) (k : ℕ) (R : ℤ)
    (hR : retirement_month cfg = some R) (h : (k : ℤ) < R) :
    isAccumulation cfg k = true := by
  unfold isAccumulation
  rw [hR]
  simpa using h

theorem isAccum_of_le (cfg : SimulationConfig) (k : ℕ) (R : ℤ)
    (hR : retirement_month cfg = some R) (h : R ≤ (k : ℤ)) :
    isAccumulation cfg k = false := by
  unfold isAccumulation
  rw [hR]
  simpa using h

theorem lumpAt_nonneg (cfg : SimulationConfig)
    (hl : ∀ k a, cfg.lump_sums k = some a → 0 ≤ a) (k : ℕ) :
    0 ≤ lumpAt cfg k := by
  unfold lumpAt
  cases h : cfg.lump_sums k with
  | none => simp
  | some a => simpa using hl k a h

theorem rate_nonneg (cfg : SimulationConfig) (hg : 0 ≤ cfg.annual_growth) :
    0 ≤ monthly_rate cfg := by
  unfold monthly_rate
  positivity

theorem balance_nonneg (cfg : SimulationConfig)
    (hc : 0 ≤ cfg.monthly_contribution)
    (hl : ∀ k a, cfg.lump_sums k = some a → 0 ≤ a)
    (hg : 0 ≤ cfg.annual_growth) :
    ∀ n : ℕ, (∀ k, k < n → isAccumulation cfg k = true) →
      0 ≤ (stateAt cfg n).balance
  | 0, _ => by simp [stateAt, initState]
  | n + 1, hacc => by
    rw [balance_recur, if_pos (hacc n (Nat.lt_succ_self n))]
    have hb := balance_nonneg cfg hc hl hg n
      (fun k hk => hacc k (hk.trans (Nat.lt_succ_self n)))
    have hlmp := lumpAt_nonneg cfg hl n
    have hrate := rate_nonneg cfg hg
    apply mul_nonneg (by linarith) (by linarith)

/-- C1: for every month m ≥ 1 of a returned projection, the recorded
nominal balance equals the previous month's nominal balance, plus the
month's lump sum, plus the monthly contribution in the accumulation phase
or minus the withdrawal in the decumulation phase, all multiplied by
`1 + monthly_rate` with `monthly_rate = annual_growth / 12 / 100`: growth
is applied exactly once per month, after that month's cash flow, and the
inflation multiplier entering the withdrawal is the one accumulated
through the previous month-end. -/
theorem balance_recurrence (cfg : SimulationConfig) (l : List MonthlyRecord)
    (m : ℕ) (r r' : MonthlyRecord)
    (hrun : calculate_retirement_plan cfg = some l)
    (hr : l[m]? = some r) (hr' : l[m + 1]? = some r') :
    r'.nominal_balance =
      (r.nominal_balance + lumpAt cfg (m + 1) +
        (if isAccumulation cfg (m + 1) then cfg.monthly_contribution
         else -(if cfg.inflation_adjusted_withdrawals
                then cfg.monthly_withdrawal * (1 + monthly_inflation cfg) ^ (m + 1)
                else cfg.monthly_withdrawal))) * (1 + monthly_rate cfg) := by
  obtain ⟨-, rfl⟩ := run_get cfg l m r hrun hr
  obtain ⟨-, rfl⟩ := run_get cfg l (m + 1) r' hrun hr'
  rw [recordAt_nominal, recordAt_nominal, balance_recur]

/-- Witness for C1 at `cfgW`, month 0 → 1. -/
theorem balance_recurrence_witness :
    calculate_retirement_plan cfgW = some lW ∧
    lW[0]? = some (recordAt cfgW 0) ∧ lW[1]? = some (recordAt cfgW 1) ∧
    (recordAt cfgW 1).nominal_balance =
      ((recordAt cfgW 0).nominal_balance + lumpAt cfgW 1 +
        (if isAccumulation cfgW 1 then cfgW.monthly_contribution
         else -(if cfgW.inflation_adjusted_withdrawals
                then cfgW.monthly_withdrawal * (1 + monthly_inflation cfgW) ^ 1
                else cfgW.monthly_withdrawal))) * (1 + monthly_rate cfgW) := by
  have hrun : calculate_retirement_plan cfgW = some lW :=
    run_eq cfgW (Or.inl (by decide))
  exact ⟨hrun, rfl, rfl, balance_recurrence cfgW lW 0 _ _ hrun rfl rfl⟩

/-- C2 counterexample: `cfgZ` supplies `retirement_age = 0` (a value inside
the documented domain, ages are ints ≥ 0), yet the engine's
`retirement_month` is undefined rather than
`(retirement_age - current_age) * 12`, because the source's truthiness test
`if retirement_age` treats the supplied value 0 like `None`. -/
theorem cash_flow_phases_cex :
    cfgZ.retirement_age = some 0 ∧
    retirement_month cfgZ ≠ some ((0 - cfgZ.current_age) * 12) := by
  exact ⟨rfl, by decide⟩

/-- C2 amended: `retirement_month = (retirement_age - current_age) * 12`
when `retirement_age` is supplied AND nonzero, and is undefined when
`retirement_age` is absent; for every month m of a returned projection,
if `retirement_month` is undefined or m < `retirement_month` then the
monthly contribution is added to both the balance and the cumulative
contributions, and otherwise the withdrawal — inflation-adjusted exactly
when the flag is set — is subtracted from the balance (no floor: the
formula is a plain subtraction) and the cumulative contributions gain only
the lump sum. -/
theorem cash_flow_phases_amended :
    (∀ (cfg : SimulationConfig) (ra : ℤ), cfg.retirement_age = some ra → ra ≠ 0 →
      retirement_month cfg = some ((ra - cfg.current_age) * 12)) ∧
    (∀ cfg : SimulationConfig, cfg.retirement_age = none →
      retirement_month cfg = none) ∧
    (∀ (cfg : SimulationConfig) (l : List MonthlyRecord) (m : ℕ)
        (r r' : MonthlyRecord),
      calculate_retirement_plan cfg = some l →
      l[m]? = some r → l[m + 1]? = some r' →
      ((retirement_month cfg = none ∨
          (∃ rm, retirement_month cfg = some rm ∧ (m : ℤ) + 1 < rm)) →
        r'.nominal_balance =
          (r.nominal_balance + lumpAt cfg (m + 1) + cfg.monthly_contribution) *
            (1 + monthly_rate cfg) ∧
        r'.cumulative_contributions =
          r.cumulative_contributions + lumpAt cfg (m + 1) +
            cfg.monthly_contribution) ∧
      (∀ rm, retirement_month cfg = some rm → rm ≤ (m : ℤ) + 1 →
        r'.nominal_balance =
          (r.nominal_balance + lumpAt cfg (m + 1) -
            (if cfg.inflation_adjusted_withdrawals
             then cfg.monthly_withdrawal * (1 + monthly_inflation cfg) ^ (m + 1)
             else cfg.monthly_withdrawal)) * (1 + monthly_rate cfg) ∧
        r'.cumulative_contributions =
          r.cumulative_contributions + lumpAt cfg (m + 1))) := by
  refine ⟨retirement_month_of_ne, retirement_month_none, ?_⟩
  intro cfg l m r r' hrun hr hr'
  obtain ⟨-, rfl⟩ := run_get cfg l m r hrun hr
  obtain ⟨-, rfl⟩ := run_get cfg l (m + 1) r' hrun hr'
  have hcast : (((m + 1 : ℕ)) : ℤ) = (m : ℤ) + 1 := by push_cast; ring
  constructor
  · intro hacc
    have ha : isAccumulation cfg (m + 1) = true := by
      rcases hacc with h | ⟨rm, hrm, hlt⟩
      · exact isAccum_of_none cfg (m + 1) h
      · exact isAccum_of_lt cfg (m + 1) rm hrm (by rw [hcast]; exact hlt)
    constructor
    · rw [recordAt_nominal, recordAt_nominal, balance_recur, if_pos ha]
    · rw [recordAt_cum, recordAt_cum, cum_recur, if_pos ha]
  · intro rm hrm hle
    have ha : isAccumulation cfg (m + 1) = false :=
      isAccum_of_le cfg (m + 1) rm hrm (by rw [hcast]; exact hle)
    constructor
    · rw [recordAt_nominal, recordAt_nominal, balance_recur, if_neg (by simp [ha])]
      ring
    · rw [recordAt_cum, recordAt_cum, cum_recur, if_neg (by simp [ha])]
      ring

/-- Witness for C2 amended: `cfgA` (retirement age 40, current age 30). -/
theorem cash_flow_phases_amended_witness :
    cfgA.retirement_age = some 40 ∧ (40 : ℤ) ≠ 0 ∧
    retirement_month cfgA = some ((40 - cfgA.current_age) * 12) :=
  ⟨rfl, by decide, cash_flow_phases_amended.1 cfgA 40 rfl (by decide)⟩

/-- C3: for every month of a returned projection (target fund non-negative
as the input domain requires), the recorded goal flag is
`nominal_balance ≥ target_fund` when the target fund is set (> 0), and
`month ≥ retirement_month` otherwise; in particular, with no target fund
and `retirement_age = current_age` the flag is true at every recorded
month from month 0 on. -/
theorem goal_flag_rule (cfg : SimulationConfig) (l : List MonthlyRecord)
    (m : ℕ) (r : MonthlyRecord) (htf : 0 ≤ cfg.target_fund)
    (hrun : calculate_retirement_plan cfg = some l) (hr : l[m]? = some r) :
    (0 < cfg.target_fund →
      r.goal_reached = decide (r.nominal_balance ≥ cfg.target_fund)) ∧
    (cfg.target_fund = 0 →
      ∃ rm, retirement_month cfg = some rm ∧
        r.goal_reached = decide ((m : ℤ) ≥ rm)) ∧
    (cfg.target_fund = 0 → cfg.retirement_age = some cfg.current_age →
      r.goal_reached = true) := by
  obtain ⟨hd, -⟩ := run_some cfg l hrun
  obtain ⟨-, rfl⟩ := run_get cfg l m r hrun hr
  refine ⟨?_, ?_, ?_⟩
  · intro hpos
    rw [recordAt_goal, recordAt_nominal]
    unfold goalFlag
    rw [if_neg (ne_of_gt hpos)]
    rfl
  · intro hz
    rcases hd with hd | hd
    · exact absurd hz hd
    · cases hrm : retirement_month cfg with
      | none => exact absurd hrm hd
      | some rm =>
        refine ⟨rm, rfl, ?_⟩
        rw [recordAt_goal]
        unfold goalFlag
        rw [if_pos hz, hrm]
        rfl
  · intro hz hage
    rcases hd with hd | hd
    · exact absurd hz hd
    · have hca : cfg.current_age ≠ 0 := by
        intro h0
        exact hd (retirement_month_zero cfg (by rw [hage, h0]))
      have hrm : retirement_month cfg = some 0 := by
        rw [retirement_month_of_ne cfg cfg.current_age hage hca]
        simp
      rw [recordAt_goal]
      unfold goalFlag
      rw [if_pos hz, hrm]
      simp

/-- Witness for C3 at `cfgW`, month 0: the target fund is set, so the flag
follows the balance-vs-target comparison. -/
theorem goal_flag_rule_witness :
    0 ≤ cfgW.target_fund ∧ calculate_retirement_plan cfgW = some lW ∧
    lW[0]? = some (recordAt cfgW 0) ∧
    (0 < cfgW.target_fund →
      (recordAt cfgW 0).goal_reached =
        decide ((recordAt cfgW 0).nominal_balance ≥ cfgW.target_fund)) := by
  have hrun : calculate_retirement_plan cfgW = some lW :=
    run_eq cfgW (Or.inl (by decide))
  exact ⟨by decide, hrun, rfl,
    (goal_flag_rule cfgW lW 0 (recordAt cfgW 0) (by decide) hrun rfl).1⟩

/-- C4: a returned projection has exactly `years * 12 + 1` rows, the row at
position m carries month index m (chronological order), and one simulated
year yields exactly 13 rows. -/
theorem projection_length (cfg : SimulationConfig) (l : List MonthlyRecord)
    (hy : 1 ≤ cfg.years) (hrun : calculate_retirement_plan cfg = some l) :
    l.length = cfg.years * 12 + 1 ∧
    (∀ (m : ℕ) (r : MonthlyRecord), l[m]? = some r → r.month_index = m) ∧
    (cfg.years = 1 → l.length = 13) := by
  obtain ⟨-, rfl⟩ := run_some cfg l hrun
  refine ⟨by simp, ?_, ?_⟩
  · intro m r hr
    obtain ⟨-, rfl⟩ :=
      run_get cfg ((List.range (cfg.years * 12 + 1)).map (recordAt cfg)) m r hrun hr
    exact recordAt_month_index cfg m
  · intro h1
    simp [h1]

/-- Witness for C4 at `cfgW` (one simulated year, 13 rows). -/
theorem projection_length_witness :
    1 ≤ cfgW.years ∧ calculate_retirement_plan cfgW = some lW ∧
    lW.length = cfgW.years * 12 + 1 :=
  have hrun : calculate_retirement_plan cfgW = some lW :=
    run_eq cfgW (Or.inl (by decide))
  ⟨by decide, hrun, (projection_length cfgW lW (by decide) hrun).1⟩

/-- C5: every recorded real balance is the nominal balance divided by the
inflation multiplier accumulated through the previous month-end, i.e. by
`(1 + monthly_inflation) ^ m`; at month 0 the divisor is 1 so the real
balance equals the nominal balance. -/
theorem real_balance_deflation (cfg : SimulationConfig)
    (l : List MonthlyRecord) (m : ℕ) (r : MonthlyRecord)
    (hinf : 0 ≤ cfg.annual_inflation)
    (hrun : calculate_retirement_plan cfg = some l) (hr : l[m]? = some r) :
    r.real_balance = r.nominal_balance / (1 + monthly_inflation cfg) ^ m ∧
    (m = 0 → r.real_balance = r.nominal_balance) := by
  obtain ⟨-, rfl⟩ := run_get cfg l m r hrun hr
  constructor
  · rw [recordAt_real, recordAt_nominal, stateAt_mult]
  · intro h0
    subst h0
    rw [recordAt_real, recordAt_nominal, stateAt_mult, pow_zero, div_one]

/-- Witness for C5 at `cfgW`, month 0. -/
theorem real_balance_deflation_witness :
    0 ≤ cfgW.annual_inflation ∧ calculate_retirement_plan cfgW = some lW ∧
    lW[0]? = some (recordAt cfgW 0) ∧
    (recordAt cfgW 0).real_balance =
      (recordAt cfgW 0).nominal_balance / (1 + monthly_inflation cfgW) ^ 0 := by
  have hrun : calculate_retirement_plan cfgW = some lW :=
    run_eq cfgW (Or.inl (by decide))
  exact ⟨by decide, hrun, rfl,
    (real_balance_deflation cfgW lW 0 (recordAt cfgW 0) (by decide) hrun rfl).1⟩

/-- C6: with non-negative monthly contribution and non-negative lump sums,
the cumulative-contributions column never decreases from one month to the
next. -/
theorem cumulative_contributions_mono (cfg : SimulationConfig)
    (l : List MonthlyRecord) (m : ℕ) (r r' : MonthlyRecord)
    (hc : 0 ≤ cfg.monthly_contribution)
    (hl : ∀ k a, cfg.lump_sums k = some a → 0 ≤ a)
    (hrun : calculate_retirement_plan cfg = some l)
    (hr : l[m]? = some r) (hr' : l[m + 1]? = some r') :
    r.cumulative_contributions ≤ r'.cumulative_contributions := by
  obtain ⟨-, rfl⟩ := run_get cfg l m r hrun hr
  obtain ⟨-, rfl⟩ := run_get cfg l (m + 1) r' hrun hr'
  rw [recordAt_cum, recordAt_cum, cum_recur cfg (m + 1)]
  have hlmp := lumpAt_nonneg cfg hl (m + 1)
  have hcontrib :
      (0:ℚ) ≤ (if isAccumulation cfg (m + 1) then cfg.monthly_contribution else 0) := by
    by_cases ha : isAccumulation cfg (m + 1) = true <;> simp [ha, hc]
  linarith

/-- Witness for C6 at `cfgW`, months 0 and 1. -/
theorem cumulative_contributions_mono_witness :
    0 ≤ cfgW.monthly_contribution ∧ calculate_retirement_plan cfgW = some lW ∧
    (recordAt cfgW 0).cumulative_contributions ≤
      (recordAt cfgW 1).cumulative_contributions := by
  have hrun : calculate_retirement_plan cfgW = some lW :=
    run_eq cfgW (Or.inl (by decide))
  exact ⟨by decide, hrun,
    cumulative_contributions_mono cfgW lW 0 (recordAt cfgW 0) (recordAt cfgW 1)
      (by decide) (fun k a h => nomatch h) hrun rfl rfl⟩

/-- C7 counterexample: `cfgZ` supplies a retirement age (the value 0, inside
the documented domain) and no target fund, yet the engine fails: the goal
comparison references the undefined `retirement_month` (a `TypeError` in
the source), so no projection is returned. -/
theorem engine_total_cex :
    (0 < cfgZ.target_fund ∨ cfgZ.retirement_age ≠ none) ∧
    calculate_retirement_plan cfgZ = none := by
  exact ⟨Or.inr (by decide), by decide⟩

/-- C7 amended: the engine is total once `target_fund > 0` or
`retirement_age` is supplied and nonzero - every internal operation is
guarded and a full projection is always returned. -/
theorem engine_total_amended (cfg : SimulationConfig)
    (h : 0 < cfg.target_fund ∨
      (∃ ra, cfg.retirement_age = some ra ∧ ra ≠ 0)) :
    ∃ l, calculate_retirement_plan cfg = some l ∧
      l.length = cfg.years * 12 + 1 := by
  have hd : goalDefined cfg := by
    rcases h with h | ⟨ra, hra, hne⟩
    · exact Or.inl (ne_of_gt h)
    · exact Or.inr (by rw [retirement_month_of_ne cfg ra hra hne]; simp)
  exact ⟨_, run_eq cfg hd, by simp⟩

/-- Witness for C7 amended at `cfgA`. -/
theorem engine_total_amended_witness :
    (0 < cfgA.target_fund ∨ (∃ ra, cfgA.retirement_age = some ra ∧ ra ≠ 0)) ∧
    ∃ l, calculate_retirement_plan cfgA = some l ∧
      l.length = cfgA.years * 12 + 1 :=
  ⟨Or.inl (by decide),
   engine_total_amended cfgA (Or.inl (by decide))⟩

/-- C8: the engine is deterministic and reads nothing but its argument:
two invocations on identical configurations return identical projections. -/
theorem run_deterministic (cfg1 cfg2 : SimulationConfig) (h : cfg1 = cfg2) :
    calculate_retirement_plan cfg1 = calculate_retirement_plan cfg2 := by
  rw [h]

/-- Witness for C8 at `cfgW`. -/
theorem run_deterministic_witness :
    calculate_retirement_plan cfgW = calculate_retirement_plan cfgW :=
  run_deterministic cfgW cfgW rfl

/-- C9: with a positive monthly contribution, non-negative growth rate and
non-negative lump sums, the nominal balance strictly increases from each
recorded month to the next throughout the accumulation phase (both months
strictly before the retirement month). -/
theorem accumulation_strict_mono (cfg : SimulationConfig)
    (l : List MonthlyRecord) (R : ℤ) (m : ℕ) (r r' : MonthlyRecord)
    (hc : 0 < cfg.monthly_contribution) (hg : 0 ≤ cfg.annual_growth)
    (hl : ∀ k a, cfg.lump_sums k = some a → 0 ≤ a)
    (hR : retirement_month cfg = some R)
    (hrun : calculate_retirement_plan cfg = some l)
    (hr : l[m]? = some r) (hr' : l[m + 1]? = some r')
    (hm : (m : ℤ) + 1 < R) :
    r.nominal_balance < r'.nominal_balance := by
  obtain ⟨-, rfl⟩ := run_get cfg l m r hrun hr
  obtain ⟨-, rfl⟩ := run_get cfg l (m + 1) r' hrun hr'
  rw [recordAt_nominal, recordAt_nominal, balance_recur cfg (m + 1),
    if_pos (isAccum_of_lt cfg (m + 1) R hR (by push_cast; linarith))]
  have hb : 0 ≤ (stateAt cfg (m + 1)).balance := by
    apply balance_nonneg cfg (le_of_lt hc) hl hg
    intro k hk
    apply isAccum_of_lt cfg k R hR
    have : (k : ℤ) ≤ (m : ℤ) := by exact_mod_cast Nat.lt_succ_iff.mp hk
    linarith
  have hlmp := lumpAt_nonneg cfg hl (m + 1)
  have hrate := rate_nonneg cfg hg
  set b := (stateAt cfg (m + 1)).balance with hbdef
  have h1 : b + lumpAt cfg (m + 1) + cfg.monthly_contribution ≤
      (b + lumpAt cfg (m + 1) + cfg.monthly_contribution) * (1 + monthly_rate cfg) :=
    le_mul_of_one_le_right (by linarith) (by linarith)
  linarith

/-- Witness for C9 at `cfgA` (retirement month 120), months 0 and 1. -/
theorem accumulation_strict_mono_witness :
    0 < cfgA.monthly_contribution ∧ retirement_month cfgA = some 120 ∧
    calculate_retirement_plan cfgA = some lA ∧
    (recordAt cfgA 0).nominal_balance < (recordAt cfgA 1).nominal_balance := by
  have hd : goalDefined cfgA := Or.inl (by decide)
  have hrun : calculate_retirement_plan cfgA = some lA := run_eq cfgA hd
  refine ⟨by decide, by decide, hrun, ?_⟩
  exact accumulation_strict_mono cfgA lA 120 0 (recordAt cfgA 0) (recordAt cfgA 1)
    (by decide) (by decide) (fun k a h => nomatch h) (by decide) hrun rfl rfl
    (by decide)

theorem recordAt_age (cfg : SimulationConfig) (m : ℕ) :
    (recordAt cfg m).age = cfg.current_age + ((m / 12 : ℕ) : ℤ) := rfl

/-- C10: when withdrawals are not inflation-adjusted, the inflation rate
does not interfere with the nominal outputs: two configurations identical
except for `annual_inflation` yield projections that agree month-by-month
on month index, age, nominal balance, cumulative contributions and goal
flag (everything except `real_balance`). -/
theorem inflation_noninterference (cfg1 cfg2 : SimulationConfig)
    (hflag : cfg1.inflation_adjusted_withdrawals = false)
    (heq : cfg2 = { cfg1 with annual_inflation := cfg2.annual_inflation }) :
    Option.map (List.map observableRecord) (calculate_retirement_plan cfg1) =
      Option.map (List.map observableRecord) (calculate_retirement_plan cfg2) := by
  have h1 : cfg2.current_age = cfg1.current_age := by rw [heq]
  have h2 : cfg2.retirement_age = cfg1.retirement_age := by rw [heq]
  have h3 : cfg2.target_fund = cfg1.target_fund := by rw [heq]
  have h4 : cfg2.annual_growth = cfg1.annual_growth := by rw [heq]
  have h5 : cfg2.monthly_contribution = cfg1.monthly_contribution := by rw [heq]
  have h6 : cfg2.monthly_withdrawal = cfg1.monthly_withdrawal := by rw [heq]
  have h7 : cfg2.lump_sums = cfg1.lump_sums := by rw [heq]
  have h8 : cfg2.years = cfg1.years := by rw [heq]
  have h9 : cfg2.inflation_adjusted_withdrawals =
      cfg1.inflation_adjusted_withdrawals := by rw [heq]
  have hf2 : cfg2.inflation_adjusted_withdrawals = false := by rw [h9, hflag]
  have hrm : retirement_month cfg2 = retirement_month cfg1 := by
    unfold retirement_month
    simp only [h1, h2]
  have hacc : ∀ k, isAccumulation cfg2 k = isAccumulation cfg1 k := by
    intro k
    unfold isAccumulation
    rw [hrm]
  have hrate : monthly_rate cfg2 = monthly_rate cfg1 := by
    unfold monthly_rate
    rw [h4]
  have hlump : ∀ k, lumpAt cfg2 k = lumpAt cfg1 k := by
    intro k
    unfold lumpAt
    rw [h7]
  have hstate : ∀ m, (stateAt cfg2 m).balance = (stateAt cfg1 m).balance ∧
      (stateAt cfg2 m).contribution_total =
        (stateAt cfg1 m).contribution_total := by
    intro m
    induction m with
    | zero => exact ⟨rfl, rfl⟩
    | succ m ih =>
      obtain ⟨ihb, ihc⟩ := ih
      constructor
      · rw [balance_recur, balance_recur, ihb, hrate, hlump, hacc, hflag, hf2,
          h5, h6]
        simp only [Bool.false_eq_true, if_false]
      · rw [cum_recur, cum_recur, ihc, hlump, hacc, h5]
  have hrec : ∀ m, observableRecord (recordAt cfg2 m) =
      observableRecord (recordAt cfg1 m) := by
    intro m
    obtain ⟨hb, hct⟩ := hstate (m + 1)
    unfold observableRecord
    rw [recordAt_month_index, recordAt_month_index, recordAt_age, recordAt_age,
      recordAt_nominal, recordAt_nominal, recordAt_cum, recordAt_cum,
      recordAt_goal, recordAt_goal, h1, hb, hct]
    have hgf : goalFlag cfg2 (m) ((stateAt cfg1 (m + 1)).balance) =
        goalFlag cfg1 (m) ((stateAt cfg1 (m + 1)).balance) := by
      unfold goalFlag
      simp only [h3, hrm]
    rw [hgf]
  have hd12 : goalDefined cfg1 ↔ goalDefined cfg2 := by
    unfold goalDefined
    rw [hrm, h3]
  by_cases hd : goalDefined cfg1
  · rw [run_eq cfg1 hd, run_eq cfg2 (hd12.mp hd), h8]
    simp only [Option.map_some']
    congr 1
    rw [List.map_map, List.map_map]
    apply List.map_congr_left
    intro a _
    exact (hrec a).symm
  · rw [run_none cfg1 hd, run_none cfg2 (fun h => hd (hd12.mpr h))]

/-- Witness for C10: `cfgW` against `cfgWinfl` (inflation 0 vs 5). -/
theorem inflation_noninterference_witness :
    cfgW.inflation_adjusted_withdrawals = false ∧
    Option.map (List.map observableRecord) (calculate_retirement_plan cfgW) =
      Option.map (List.map observableRecord)
        (calculate_retirement_plan cfgWinfl) :=
  ⟨rfl, inflation_noninterference cfgW cfgWinfl rfl rfl⟩
